import Mathlib

/-!
Verification of the batch text-to-speech dispatcher in polly_q.py and its
dataset mode. The remote Polly service, the filesystem and the wall clock are
external collaborators; they enter the embedding as explicit inputs: an
oracle giving the outcome of each remote call, and millisecond timestamps
passed to the throttling step. Everything else is translated directly from
the Python source.
-/

/-- Python str.strip(): remove leading and trailing whitespace. Written over
the character list so that it evaluates inside the kernel. -/
def pyStrip (s : String) : String :=
  String.mk (((s.data.dropWhile Char.isWhitespace).reverse.dropWhile
    Char.isWhitespace).reverse)

/-- Helper for `pySplitTab`: split a character list at tab characters,
`acc` holding the current field reversed. -/
def splitTabAux : List Char → List Char → List String
  | [], acc => [String.mk acc.reverse]
  | c :: cs, acc =>
    if c = '\t' then String.mk acc.reverse :: splitTabAux cs []
    else splitTabAux cs (c :: acc)

/-- Python s.split(chr(9)): the tab-separated fields of `s`. -/
def pySplitTab (s : String) : List String :=
  splitTabAux s.data []

/-- The per-endpoint request budget: the literal 8 in
`region_index = int(region_count / 8)` (polly_q.py line 172). -/
def budget : ℕ := 8

/-- AWS_REGIONS (polly_q.py lines 7-21): the four regions that are not
commented out. -/
def AWS_REGIONS : List String :=
  ["us-east-1", "us-west-2", "ca-central-1", "eu-west-1"]

/-- Outcome of one remote synthesize_speech call together with the file write,
seen from generate_speech (polly_q.py lines 51-74):
* `success hasAudio`: the call returned a response; `hasAudio` says whether
  the key "AudioStream" is present in it (line 64);
* `remoteErr`: the call raised BotoCoreError or ClientError (line 69);
* `writeErr`: the response had an audio stream but writing the file raised
  IOError (line 72). -/
inductive Response where
  | success (hasAudio : Bool)
  | remoteErr
  | writeErr
deriving DecidableEq, Repr

/-- The exception classes generate_speech catches and re-raises. -/
inductive SpeechErr where
  | remote
  | io
deriving DecidableEq, Repr

/-- True when the dispatch of this response returns normally from
generate_speech (no exception reaches the caller). -/
def isOk : Response → Bool
  | .success _ => true
  | .remoteErr => false
  | .writeErr => false

/-- True when the response carries an audio payload, i.e. exactly the case in
which generate_speech writes the output file (polly_q.py lines 64-66). -/
def isPayload : Response → Bool
  | .success true => true
  | _ => false

/-- Python {count:04d}: the decimal representation of `n` left-padded with
zeros to at least four characters. -/
def pad4 (n : ℕ) : String :=
  String.mk (List.replicate (4 - (Nat.repr n).length) '0') ++ Nat.repr n

/-- The output file name built at polly_q.py line 171:
f-string speech_{language_code}_{count:04d}.mp3. The enclosing output
directory (os.path.join with output_dir) is constant over a run and is
dropped from the model. -/
def mkFileName (language_code : String) (count : ℕ) : String :=
  "speech_" ++ language_code ++ "_" ++ pad4 count ++ ".mp3"

/-- generate_speech (polly_q.py lines 41-74), with the remote outcome made
explicit. On a response with an audio stream it writes the output file and
returns; on a response without one the `if "AudioStream" in response` guard
skips the write and the function still returns normally (there is no else
branch); on BotoCoreError/ClientError or IOError it logs and re-raises, which
the model renders as `Except.error`. The returned list holds the files
written by the call. The `region` argument only selects the client
(line 53); it does not change the control flow modelled here. -/
def generate_speech (resp : Response) (output_file : String) (region : String) :
    Except SpeechErr (List String) :=
  match resp with
  | .success true => Except.ok [output_file]
  | .success false => Except.ok []
  | .remoteErr => Except.error SpeechErr.remote
  | .writeErr => Except.error SpeechErr.io

/-- True when the adapter call lets an exception escape to its caller. -/
def raisesOut (r : Except SpeechErr (List String)) : Bool :=
  match r with
  | .ok _ => false
  | .error _ => true

/-- State of one run of generate_speech_from_file (polly_q.py lines 160-199):
`count` and `region_count` are the Python locals of the same names; `files`
collects the paths written so far; `failures` collects, in order, the value
of `count` printed by the per-line handler at line 198 for each failed line;
`attempted` counts the non-blank lines processed so far (ghost, it indexes
the oracle); `selected` records the region argument passed to each
generate_speech call (ghost instrumentation for rotation properties). -/
structure BatchState where
  count : ℕ
  region_count : ℕ
  files : List String
  failures : List ℕ
  attempted : ℕ
  selected : List String
deriving DecidableEq, Repr

/-- The state at loop entry (polly_q.py lines 160-162). -/
def initState : BatchState := ⟨0, 0, [], [], 0, []⟩

/-- Lines 172-180 without the timing side effects: from the number of
endpoints and the current region_count, the pair (region_index to use,
region_count after the wrap check). `region_index = int(region_count / 8)`;
when it reaches the end of the list both are reset to 0. -/
def wrapAdjust (numRegions : ℕ) (region_count : ℕ) : ℕ × ℕ :=
  if numRegions ≤ region_count / budget then (0, 0)
  else (region_count / budget, region_count)

/-- Processing of one non-blank line (polly_q.py lines 171-199). The endpoint
list is indexed inside the try block, so an out-of-range index (possible only
with an empty region list) is caught by `except Exception` like any adapter
failure. On a normal return from generate_speech both `count` and
`region_count` are incremented (lines 194-195); on an exception the handler
records the current `count` and continues (lines 197-199). -/
def dispatch (regions : List String) (language_code : String)
    (oracle : ℕ → Response) (s : BatchState) : BatchState :=
  match regions[(wrapAdjust regions.length s.region_count).1]? with
  | none =>
      { s with failures := s.failures ++ [s.count],
               region_count := (wrapAdjust regions.length s.region_count).2,
               attempted := s.attempted + 1 }
  | some region =>
      match generate_speech (oracle s.attempted) (mkFileName language_code s.count) region with
      | Except.ok written =>
          { s with files := s.files ++ written,
                   count := s.count + 1,
                   region_count := (wrapAdjust regions.length s.region_count).2 + 1,
                   attempted := s.attempted + 1,
                   selected := s.selected ++ [region] }
      | Except.error _ =>
          { s with failures := s.failures ++ [s.count],
                   region_count := (wrapAdjust regions.length s.region_count).2,
                   attempted := s.attempted + 1,
                   selected := s.selected ++ [region] }

/-- One iteration of the `for line in file` loop (polly_q.py lines 166-199):
the line is stripped and, if empty, skipped without touching any state. -/
def processLine (regions : List String) (language_code : String)
    (oracle : ℕ → Response) (s : BatchState) (line : String) : BatchState :=
  if pyStrip line = "" then s else dispatch regions language_code oracle s

/-- generate_speech_from_file (polly_q.py lines 147-205) over an in-memory
list of input lines, parameterised by the endpoint list and the remote
oracle. Directory creation and the final print are outside the model. -/
def generate_speech_from_file (regions : List String) (language_code : String)
    (oracle : ℕ → Response) (lines : List String) : BatchState :=
  lines.foldl (processLine regions language_code oracle) initState

/-- The timing part of the wrap branch (polly_q.py lines 174-178):
`last_ts` and `current_ts` are integer millisecond timestamps
(`int(time.time() * 1000)`). Returns the duration passed to time.sleep in
seconds (0 when no sleep happens) and the new value of last_ts. The code
compares the millisecond difference with the float literal 1.0 and sleeps
for `current_ts - last_ts + 0.1` seconds; floats are modelled as rationals. -/
def wrapDelay (last_ts current_ts : ℤ) : ℚ × ℤ :=
  if ((current_ts - last_ts : ℤ) : ℚ) < 1 then
    (((current_ts - last_ts : ℤ) : ℚ) + 1 / 10, current_ts)
  else (0, current_ts)

/-- The voice_map local to generate_speech_dataset (polly_q.py lines 95-103). -/
def voice_map : List (String × String) :=
  [("es-ES", "Lucia"), ("fr-FR", "Lea"), ("de-DE", "Vicki"),
   ("it-IT", "Cristiano"), ("pt-PT", "Ines"), ("hi-IN", "Kajal")]

/-- The error raised for every row of generate_speech_dataset. -/
inductive DatasetErr where
  | nameError
deriving DecidableEq, Repr

/-- The per-row call at polly_q.py lines 126-132: the keyword argument
`engine=engine` refers to a name `engine` that is bound nowhere in
generate_speech_dataset, its enclosing scopes or the module globals, so
evaluating the argument raises NameError before generate_speech runs. -/
def datasetRowDispatch : Except DatasetErr (List String) :=
  Except.error DatasetErr.nameError

/-- The file name built at polly_q.py line 123:
f-string sample_{count}_{language_code}.mp3 (output_dir dropped as above). -/
def mkSampleName (language_code : String) (count : ℕ) : String :=
  "sample_" ++ Nat.repr count ++ "_" ++ language_code ++ ".mp3"

/-- The row loop of generate_speech_dataset (polly_q.py lines 113-137):
stops when count reaches num_samples; rows whose stripped text has fewer
than two tab-separated parts are skipped; otherwise the row is dispatched,
a success would append a file and bump count, and the per-row handler
swallows any exception and continues. -/
def datasetLoop (language_code : String) (num_samples : ℕ) :
    List String → ℕ → List String → ℕ × List String
  | [], count, files => (count, files)
  | l :: ls, count, files =>
    if num_samples ≤ count then (count, files)
    else
      if 2 ≤ (pySplitTab (pyStrip l)).length then
        match datasetRowDispatch with
        | Except.ok _ =>
            datasetLoop language_code num_samples ls (count + 1)
              (files ++ [mkSampleName language_code count])
        | Except.error _ => datasetLoop language_code num_samples ls count files
      else datasetLoop language_code num_samples ls count files

/-- generate_speech_dataset (polly_q.py lines 81-143) over an in-memory list
of dataset rows: unsupported language codes raise ValueError (modelled as
`Except.error` with the message of line 106); otherwise the row loop runs and
the final (count, generated files) pair is returned. -/
def generate_speech_dataset (language_code : String) (lines : List String)
    (num_samples : ℕ) : Except String (ℕ × List String) :=
  match List.lookup language_code voice_map with
  | none => Except.error ("Unsupported language code: " ++ language_code)
  | some _ => Except.ok (datasetLoop language_code num_samples lines 0 [])

/-- Number of lines that survive the blank filter at polly_q.py lines 167-169. -/
def nonBlank (lines : List String) : ℕ :=
  lines.countP (fun l => !(pyStrip l == ""))

/-- Number of the first `m` dispatches whose response returns normally. -/
def okCount (oracle : ℕ → Response) (m : ℕ) : ℕ :=
  (List.range m).countP (fun j => isOk (oracle j))

/-- The files written during the first `m` dispatches: one per dispatch whose
response carries an audio payload, named after the value of `count` at that
dispatch. -/
def filesSpec (language_code : String) (oracle : ℕ → Response) (m : ℕ) :
    List String :=
  ((List.range m).filter (fun j => isPayload (oracle j))).map
    (fun j => mkFileName language_code (okCount oracle j))

/-- The failure records of the first `m` dispatches: one per dispatch whose
response raises, holding the value of `count` printed at line 198. -/
def failuresSpec (oracle : ℕ → Response) (m : ℕ) : List ℕ :=
  ((List.range m).filter (fun j => !isOk (oracle j))).map (okCount oracle)

/-- The loop state after `m` dispatches of non-blank lines. -/
def runBatch (regions : List String) (language_code : String)
    (oracle : ℕ → Response) (m : ℕ) : BatchState :=
  (dispatch regions language_code oracle)^[m] initState

lemma wrapAdjust_fst_lt {n : ℕ} (hn : 0 < n) (rc : ℕ) : (wrapAdjust n rc).1 < n := by
  unfold wrapAdjust
  split
  · exact hn
  · next h => omega

lemma wrapAdjust_zero {n : ℕ} : wrapAdjust n 0 = (0, 0) := by
  unfold wrapAdjust budget
  simp

lemma getD_of_lt (l : List String) {i : ℕ} (h : i < l.length) (d : String) :
    l.getD i d = l[i] := by
  rw [List.getD_eq_getElem?_getD, List.getElem?_eq_getElem h]
  rfl

lemma dispatch_ok (regions : List String) (hR : regions ≠ []) (lc : String)
    (oracle : ℕ → Response) (s : BatchState)
    (hok : isOk (oracle s.attempted) = true) :
    dispatch regions lc oracle s =
      { s with files := s.files ++
                 (if isPayload (oracle s.attempted) then [mkFileName lc s.count] else []),
               count := s.count + 1,
               region_count := (wrapAdjust regions.length s.region_count).2 + 1,
               attempted := s.attempted + 1,
               selected := s.selected ++
                 [regions.getD (wrapAdjust regions.length s.region_count).1 ""] } := by
  have hn : 0 < regions.length := List.length_pos.mpr hR
  have hidx := wrapAdjust_fst_lt hn s.region_count
  unfold dispatch
  rw [List.getElem?_eq_getElem hidx]
  cases hresp : oracle s.attempted with
  | success b =>
    cases b <;> simp [generate_speech, isPayload, List.getElem?_eq_getElem hidx]
  | remoteErr => rw [hresp] at hok; simp [isOk] at hok
  | writeErr => rw [hresp] at hok; simp [isOk] at hok

lemma dispatch_err (regions : List String) (hR : regions ≠ []) (lc : String)
    (oracle : ℕ → Response) (s : BatchState)
    (hko : isOk (oracle s.attempted) = false) :
    dispatch regions lc oracle s =
      { s with failures := s.failures ++ [s.count],
               region_count := (wrapAdjust regions.length s.region_count).2,
               attempted := s.attempted + 1,
               selected := s.selected ++
                 [regions.getD (wrapAdjust regions.length s.region_count).1 ""] } := by
  have hn : 0 < regions.length := List.length_pos.mpr hR
  have hidx := wrapAdjust_fst_lt hn s.region_count
  unfold dispatch
  rw [List.getElem?_eq_getElem hidx]
  cases hresp : oracle s.attempted with
  | success b => rw [hresp] at hko; simp [isOk] at hko
  | remoteErr => simp [generate_speech, List.getElem?_eq_getElem hidx]
  | writeErr => simp [generate_speech, List.getElem?_eq_getElem hidx]

lemma dispatch_nil (lc : String) (oracle : ℕ → Response) (s : BatchState) :
    dispatch [] lc oracle s =
      { s with failures := s.failures ++ [s.count],
               region_count := 0,
               attempted := s.attempted + 1 } := by
  unfold dispatch wrapAdjust
  simp

lemma runBatch_succ (regions : List String) (lc : String) (oracle : ℕ → Response)
    (m : ℕ) :
    runBatch regions lc oracle (m + 1)
      = dispatch regions lc oracle (runBatch regions lc oracle m) :=
  Function.iterate_succ_apply' _ _ _

lemma foldl_processLine (regions : List String) (lc : String)
    (oracle : ℕ → Response) :
    ∀ (lines : List String) (s : BatchState),
      lines.foldl (processLine regions lc oracle) s
        = (dispatch regions lc oracle)^[nonBlank lines] s := by
  intro lines
  induction lines with
  | nil => intro s; simp [nonBlank]
  | cons l ls ih =>
    intro s
    by_cases h : pyStrip l = ""
    · have hp : processLine regions lc oracle s l = s := by simp [processLine, h]
      have hnb : nonBlank (l :: ls) = nonBlank ls := by
        simp [nonBlank, List.countP_cons, h]
      rw [List.foldl_cons, hp, ih, hnb]
    · have hp : processLine regions lc oracle s l = dispatch regions lc oracle s := by
        simp [processLine, h]
      have hnb : nonBlank (l :: ls) = nonBlank ls + 1 := by
        simp [nonBlank, List.countP_cons, h]
      rw [List.foldl_cons, hp, ih, hnb, Function.iterate_succ_apply]

lemma generate_speech_from_file_eq (regions : List String) (lc : String)
    (oracle : ℕ → Response) (lines : List String) :
    generate_speech_from_file regions lc oracle lines
      = runBatch regions lc oracle (nonBlank lines) :=
  foldl_processLine regions lc oracle lines initState

lemma okCount_succ (oracle : ℕ → Response) (m : ℕ) :
    okCount oracle (m + 1)
      = okCount oracle m + (if isOk (oracle m) then 1 else 0) := by
  simp [okCount, List.range_succ, List.countP_append, List.countP_cons]

lemma filesSpec_succ (lc : String) (oracle : ℕ → Response) (m : ℕ) :
    filesSpec lc oracle (m + 1)
      = filesSpec lc oracle m ++
          (if isPayload (oracle m) then [mkFileName lc (okCount oracle m)] else []) := by
  by_cases h : isPayload (oracle m) <;>
    simp [filesSpec, List.range_succ, List.filter_append, h]

lemma failuresSpec_succ (oracle : ℕ → Response) (m : ℕ) :
    failuresSpec oracle (m + 1)
      = failuresSpec oracle m ++
          (if isOk (oracle m) then [] else [okCount oracle m]) := by
  by_cases h : isOk (oracle m) <;>
    simp [failuresSpec, List.range_succ, List.filter_append, h]

lemma runBatch_master (regions : List String) (hR : regions ≠ []) (lc : String)
    (oracle : ℕ → Response) (m : ℕ) :
    (runBatch regions lc oracle m).attempted = m
    ∧ (runBatch regions lc oracle m).count = okCount oracle m
    ∧ (runBatch regions lc oracle m).files = filesSpec lc oracle m
    ∧ (runBatch regions lc oracle m).failures = failuresSpec oracle m := by
  induction m with
  | zero => simp [runBatch, initState, okCount, filesSpec, failuresSpec]
  | succ m ih =>
    obtain ⟨h1, h2, h3, h4⟩ := ih
    rw [runBatch_succ]
    cases hok : isOk (oracle m) with
    | true =>
      rw [dispatch_ok regions hR lc oracle _ (by rw [h1]; exact hok)]
      refine ⟨by simp [h1], ?_, ?_, ?_⟩ <;>
        simp [h1, h2, h3, h4, okCount_succ, filesSpec_succ, failuresSpec_succ, hok]
    | false =>
      have hp : isPayload (oracle m) = false := by
        cases hresp : oracle m <;> simp_all [isOk, isPayload]
      rw [dispatch_err regions hR lc oracle _ (by rw [h1]; exact hok)]
      refine ⟨by simp [h1], ?_, ?_, ?_⟩ <;>
        simp [h1, h2, h3, h4, okCount_succ, filesSpec_succ, failuresSpec_succ, hok, hp]

lemma budget_pos : 0 < budget := by norm_num [budget]

lemma wrapAdjust_formula {n : ℕ} (hn : 0 < n) (m : ℕ) :
    (wrapAdjust n (if m = 0 then 0 else (m - 1) % (budget * n) + 1)).1
        = m % (budget * n) / budget
    ∧ (wrapAdjust n (if m = 0 then 0 else (m - 1) % (budget * n) + 1)).2
        = m % (budget * n) := by
  have hN : 0 < budget * n := Nat.mul_pos budget_pos hn
  by_cases hm : m = 0
  · subst hm
    simp [wrapAdjust_zero]
  · have hm1 : m - 1 + 1 = m := Nat.succ_pred_eq_of_pos (Nat.pos_of_ne_zero hm)
    set r := (m - 1) % (budget * n) with hr
    have hrlt : r < budget * n := Nat.mod_lt _ hN
    have hmod : m % (budget * n) = (r + 1) % (budget * n) := by
      conv_lhs => rw [← hm1, ← Nat.div_add_mod (m - 1) (budget * n)]
      rw [Nat.add_assoc, Nat.mul_add_mod]
    rw [if_neg hm]
    by_cases hwrap : r + 1 = budget * n
    · have h8 : (r + 1) / budget = n := by
        rw [hwrap, Nat.mul_div_cancel_left n budget_pos]
      have hmod0 : m % (budget * n) = 0 := by rw [hmod, hwrap, Nat.mod_self]
      unfold wrapAdjust
      rw [if_pos (by rw [h8])]
      simp [hmod0]
    · have hlt : r + 1 < budget * n := by omega
      have hdiv : (r + 1) / budget < n := by
        rw [Nat.div_lt_iff_lt_mul budget_pos, Nat.mul_comm n budget]
        exact hlt
      have hmod1 : m % (budget * n) = r + 1 := by rw [hmod, Nat.mod_eq_of_lt hlt]
      unfold wrapAdjust
      rw [if_neg (by omega : ¬ n ≤ (r + 1) / budget)]
      exact ⟨by rw [hmod1], by rw [hmod1]⟩

lemma runBatch_rotation (regions : List String) (hR : regions ≠ []) (lc : String)
    (oracle : ℕ → Response) (hok : ∀ j, isOk (oracle j) = true) (m : ℕ) :
    (runBatch regions lc oracle m).region_count
      = (if m = 0 then 0 else (m - 1) % (budget * regions.length) + 1)
    ∧ (runBatch regions lc oracle m).selected
      = (List.range m).map
          (fun j => regions.getD (j % (budget * regions.length) / budget) "") := by
  have hn : 0 < regions.length := List.length_pos.mpr hR
  induction m with
  | zero => simp [runBatch, initState]
  | succ m ih =>
    obtain ⟨ih1, ih2⟩ := ih
    have h1 := (runBatch_master regions hR lc oracle m).1
    rw [runBatch_succ, dispatch_ok regions hR lc oracle _ (by rw [h1]; exact hok _)]
    constructor
    · show (wrapAdjust regions.length (runBatch regions lc oracle m).region_count).2 + 1 = _
      rw [ih1, (wrapAdjust_formula hn m).2]
      simp
    · show (runBatch regions lc oracle m).selected ++ _ = _
      rw [ih1, (wrapAdjust_formula hn m).1, ih2, List.range_succ, List.map_append]
      simp

lemma runBatch_allerr (regions : List String) (hR : regions ≠ []) (lc : String)
    (oracle : ℕ → Response) (herr : ∀ j, isOk (oracle j) = false) (m : ℕ) :
    (runBatch regions lc oracle m).region_count = 0 := by
  induction m with
  | zero => simp [runBatch, initState]
  | succ m ih =>
    have h1 := (runBatch_master regions hR lc oracle m).1
    rw [runBatch_succ, dispatch_err regions hR lc oracle _ (by rw [h1]; exact herr _)]
    show (wrapAdjust regions.length (runBatch regions lc oracle m).region_count).2 = 0
    rw [ih, wrapAdjust_zero]

lemma runBatch_nil (lc : String) (oracle : ℕ → Response) (m : ℕ) :
    runBatch [] lc oracle m = ⟨0, 0, [], List.replicate m 0, m, []⟩ := by
  induction m with
  | zero => simp [runBatch, initState]
  | succ m ih =>
    rw [runBatch_succ, ih, dispatch_nil]
    simp [List.replicate_succ']

/-- The numeric value of a decimal digit character. -/
def digitVal (c : Char) : ℕ := c.toNat - 48

/-- The number denoted by a list of decimal digit characters. -/
def digitsVal (cs : List Char) : ℕ :=
  cs.foldl (fun a c => 10 * a + digitVal c) 0

lemma digitsVal_foldl (cs : List Char) :
    ∀ a : ℕ, cs.foldl (fun a c => 10 * a + digitVal c) a
      = a * 10 ^ cs.length + digitsVal cs := by
  induction cs with
  | nil => intro a; simp [digitsVal]
  | cons c cs ih =>
    intro a
    have hv : digitsVal (c :: cs) = digitVal c * 10 ^ cs.length + digitsVal cs := by
      show cs.foldl _ (10 * 0 + digitVal c) = _
      rw [ih]
      ring
    rw [List.foldl_cons, ih, hv, List.length_cons, pow_succ]
    ring

lemma digitVal_digitChar {r : ℕ} (h : r < 10) : digitVal (Nat.digitChar r) = r := by
  interval_cases r <;> rfl

lemma digitsVal_toDigitsCore :
    ∀ (fuel n : ℕ) (ds : List Char), n < fuel →
      digitsVal (Nat.toDigitsCore 10 fuel n ds) = n * 10 ^ ds.length + digitsVal ds := by
  intro fuel
  induction fuel with
  | zero => intro n ds h; omega
  | succ f ih =>
    intro n ds h
    rw [Nat.toDigitsCore]
    by_cases h10 : n / 10 = 0
    · rw [if_pos h10]
      have hcons : digitsVal (Nat.digitChar (n % 10) :: ds)
          = (n % 10) * 10 ^ ds.length + digitsVal ds := by
        show ds.foldl _ (10 * 0 + digitVal (Nat.digitChar (n % 10))) = _
        rw [digitsVal_foldl]
        rw [digitVal_digitChar (Nat.mod_lt n (by norm_num))]
        ring
      rw [hcons]
      have : n % 10 = n := by omega
      rw [this]
    · rw [if_neg h10]
      have hlt : n / 10 < f := by omega
      rw [ih (n / 10) (Nat.digitChar (n % 10) :: ds) hlt]
      have hcons : digitsVal (Nat.digitChar (n % 10) :: ds)
          = (n % 10) * 10 ^ ds.length + digitsVal ds := by
        show ds.foldl _ (10 * 0 + digitVal (Nat.digitChar (n % 10))) = _
        rw [digitsVal_foldl]
        rw [digitVal_digitChar (Nat.mod_lt n (by omega))]
        ring
      rw [hcons, List.length_cons, pow_succ]
      have hn : 10 * (n / 10) + n % 10 = n := Nat.div_add_mod n 10
      calc n / 10 * (10 ^ ds.length * 10) + ((n % 10) * 10 ^ ds.length + digitsVal ds)
      _ = (10 * (n / 10) + n % 10) * 10 ^ ds.length + digitsVal ds := by ring
      _ = n * 10 ^ ds.length + digitsVal ds := by rw [hn]

lemma digitsVal_repr (n : ℕ) : digitsVal (Nat.repr n).data = n := by
  have h1 : (Nat.repr n).data = Nat.toDigitsCore 10 (n + 1) n [] := rfl
  rw [h1, digitsVal_toDigitsCore (n + 1) n [] (Nat.lt_succ_self n)]
  simp [digitsVal]

lemma digitsVal_replicate_zero (z : ℕ) (cs : List Char) :
    digitsVal (List.replicate z '0' ++ cs) = digitsVal cs := by
  induction z with
  | zero => simp
  | succ z ih =>
    rw [List.replicate_succ, List.cons_append]
    show (List.replicate z '0' ++ cs).foldl _ (10 * 0 + digitVal '0') = _
    have h0 : (10 * 0 + digitVal '0') = 0 := rfl
    rw [h0]
    exact ih

lemma pad4_data_inj {a b : ℕ} (h : (pad4 a).data = (pad4 b).data) : a = b := by
  have hd : ∀ n : ℕ, (pad4 n).data
      = List.replicate (4 - (Nat.repr n).length) '0' ++ (Nat.repr n).data := by
    intro n
    show (String.mk _ ++ Nat.repr n).data = _
    rw [String.data_append]
  rw [hd, hd] at h
  have h2 := congrArg digitsVal h
  rwa [digitsVal_replicate_zero, digitsVal_replicate_zero, digitsVal_repr,
    digitsVal_repr] at h2

lemma mkFileName_inj (lc : String) : Function.Injective (mkFileName lc) := by
  intro a b h
  have hd := congrArg String.data h
  simp only [mkFileName, String.data_append, List.append_assoc] at hd
  have h1 := List.append_cancel_left hd
  have h2 := List.append_cancel_left h1
  have h3 := List.append_cancel_left h2
  exact pad4_data_inj (List.append_cancel_right h3)

lemma countP_add_countP_not {α : Type} (p : α → Bool) (l : List α) :
    l.countP p + l.countP (fun a => !p a) = l.length := by
  induction l with
  | nil => simp
  | cons a l ih =>
    rw [List.countP_cons, List.countP_cons]
    cases h : p a <;> simp [h] <;> omega

lemma filter_range_eq_single {p : ℕ → Bool} {m k : ℕ} (hk : k < m)
    (hpk : p k = true) (ho : ∀ j, j ≠ k → p j = false) :
    (List.range m).filter p = [k] := by
  induction m with
  | zero => omega
  | succ m ih =>
    rw [List.range_succ, List.filter_append]
    by_cases hm : k = m
    · subst hm
      have hnil : (List.range k).filter p = [] := by
        rw [List.filter_eq_nil_iff]
        intro a ha
        rw [ho a (by simp [List.mem_range] at ha; omega)]
        simp
      simp [hnil, hpk]
    · have hkm : k < m := by omega
      rw [ih hkm]
      have hf : p m = false := ho m (by omega)
      simp [hf]

lemma isOk_of_isPayload {r : Response} (h : isPayload r = true) : isOk r = true := by
  cases r with
  | success b => cases b <;> simp_all [isOk, isPayload]
  | remoteErr => simp_all [isPayload]
  | writeErr => simp_all [isPayload]

lemma okCount_le (oracle : ℕ → Response) {a b : ℕ} (h : a ≤ b) :
    okCount oracle a ≤ okCount oracle b := by
  induction b, h using Nat.le_induction with
  | base => exact Nat.le_refl _
  | succ b hb ih =>
    have hs := okCount_succ oracle b
    cases hok : isOk (oracle b) <;> simp [hok] at hs <;> omega

lemma okCount_strict (oracle : ℕ → Response) {a b : ℕ} (hab : a < b)
    (ha : isOk (oracle a) = true) :
    okCount oracle a < okCount oracle b := by
  have h1 : okCount oracle (a + 1) = okCount oracle a + 1 := by
    rw [okCount_succ, ha]
    simp
  have h2 : okCount oracle (a + 1) ≤ okCount oracle b := okCount_le oracle hab
  omega

lemma filesSpec_exists_incr (lc : String) (oracle : ℕ → Response) (m : ℕ) :
    ∃ ixs : List ℕ, filesSpec lc oracle m = ixs.map (mkFileName lc)
      ∧ ixs.Pairwise (· < ·) := by
  refine ⟨((List.range m).filter (fun j => isPayload (oracle j))).map (okCount oracle),
    ?_, ?_⟩
  · simp [filesSpec, List.map_map, Function.comp]
  · have hpw : ((List.range m).filter (fun j => isPayload (oracle j))).Pairwise (· < ·) :=
      (List.pairwise_lt_range m).filter _
    have hpw2 : ((List.range m).filter (fun j => isPayload (oracle j))).Pairwise
        (fun a b => okCount oracle a < okCount oracle b) := by
      refine hpw.imp_of_mem ?_
      intro a b ha hb hab
      exact okCount_strict oracle hab (isOk_of_isPayload (List.mem_filter.mp ha).2)
    exact List.pairwise_map.mpr hpw2

lemma filesSpec_nodup (lc : String) (oracle : ℕ → Response) (m : ℕ) :
    (filesSpec lc oracle m).Nodup := by
  obtain ⟨ixs, heq, hpw⟩ := filesSpec_exists_incr lc oracle m
  rw [heq]
  exact List.Nodup.map (mkFileName_inj lc) (hpw.imp (fun h => Nat.ne_of_lt h))

lemma filesSpec_length (lc : String) (oracle : ℕ → Response) (m : ℕ) :
    (filesSpec lc oracle m).length
      = (List.range m).countP (fun j => isPayload (oracle j)) := by
  rw [filesSpec, List.length_map, ← List.countP_eq_length_filter]

lemma failuresSpec_length (oracle : ℕ → Response) (m : ℕ) :
    (failuresSpec oracle m).length
      = (List.range m).countP (fun j => !isOk (oracle j)) := by
  rw [failuresSpec, List.length_map, ← List.countP_eq_length_filter]

lemma filesSpec_no_gaps (lc : String) (oracle : ℕ → Response)
    (hp : ∀ j, isPayload (oracle j) = isOk (oracle j)) (m : ℕ) :
    filesSpec lc oracle m = (List.range (okCount oracle m)).map (mkFileName lc) := by
  have hkey : ∀ mm : ℕ, ((List.range mm).filter
      (fun j => isPayload (oracle j))).map (okCount oracle)
      = List.range (okCount oracle mm) := by
    intro mm
    induction mm with
    | zero => simp [okCount]
    | succ m2 ih =>
      rw [List.range_succ, List.filter_append, List.map_append, ih, okCount_succ]
      cases hok : isOk (oracle m2)
      · simp [hp m2, hok]
      · simp [hp m2, hok, List.range_succ]
  rw [← hkey m]
  simp [filesSpec, List.map_map, Function.comp]

lemma datasetLoop_zero (lc : String) (ns : ℕ) :
    ∀ ls : List String, datasetLoop lc ns ls 0 [] = (0, []) := by
  intro ls
  induction ls with
  | nil => rfl
  | cons l ls ih =>
    by_cases h : ns ≤ 0
    · simp [datasetLoop, h]
    · by_cases h2 : 2 ≤ (pySplitTab (pyStrip l)).length
      · simp [datasetLoop, h, h2, datasetRowDispatch, ih]
      · simp [datasetLoop, h, h2, ih]

/-- C2 counterexample: with the empty endpoint registry the dispatch loop does
not fail fast with a configuration error: it silently continues through both
input lines (attempted = 2), each per-line index error being caught by the
handler (failures = [0, 0]), and finishes with no files. -/
theorem c2_empty_registry_counterexample :
    (generate_speech_from_file [] "en-US" (fun _ => Response.success true)
        ["a", "b"]).attempted = 2
    ∧ (generate_speech_from_file [] "en-US" (fun _ => Response.success true)
        ["a", "b"]).files = []
    ∧ (generate_speech_from_file [] "en-US" (fun _ => Response.success true)
        ["a", "b"]).failures = [0, 0] := by decide

/-- C2 amended: an empty endpoint registry does not divide by zero (the
divisor is the constant budget), but the code has no ConfigurationError and
does not fail fast either: the wrap branch fires on every line, the endpoint
lookup raises an index error inside the try block, the per-line handler
swallows it, and the run completes having attempted every non-blank line,
produced no file, and recorded a failure with index 0 for each line. -/
theorem c2_empty_registry_silent_continue (lc : String) (oracle : ℕ → Response)
    (lines : List String) :
    generate_speech_from_file [] lc oracle lines
      = ⟨0, 0, [], List.replicate (nonBlank lines) 0, nonBlank lines, []⟩ := by
  rw [generate_speech_from_file_eq]
  exact runBatch_nil lc oracle (nonBlank lines)

/-- C3 counterexample: on a remote failure generate_speech lets the exception
escape to its caller (it re-raises instead of returning a typed error), and on
a well-formed response lacking the audio payload it returns success with no
file and no error of any kind. Both halves contradict the claimed adapter
contract. -/
theorem c3_adapter_counterexample :
    raisesOut (generate_speech Response.remoteErr "speech.mp3" "us-east-1") = true
    ∧ generate_speech (Response.success false) "speech.mp3" "us-east-1"
        = Except.ok [] := ⟨rfl, rfl⟩

/-- C3 amended: generate_speech writes the file and returns it on a response
carrying audio; on a response without audio it returns normally having written
nothing (the missing payload is not treated as an error); and it propagates an
exception to its caller exactly when the remote call or the file write raised,
re-raising the original exception rather than returning a typed
SynthesisError. -/
theorem c3_adapter_behavior (output_file region : String) :
    generate_speech (Response.success true) output_file region
        = Except.ok [output_file]
    ∧ generate_speech (Response.success false) output_file region = Except.ok []
    ∧ (∀ resp, raisesOut (generate_speech resp output_file region) = true
        ↔ (resp = Response.remoteErr ∨ resp = Response.writeErr)) := by
  refine ⟨rfl, rfl, ?_⟩
  intro resp
  cases resp with
  | success b => cases b <;> simp [generate_speech, raisesOut]
  | remoteErr => simp [generate_speech, raisesOut]
  | writeErr => simp [generate_speech, raisesOut]

/-- C4 counterexample: one line whose remote response lacks the audio payload:
the adapter does not fail (no failure is recorded) and the loop counts the
line as a success, yet no output file is produced, so the number of files (0)
differs from the number of non-failing lines (1). -/
theorem c4_counterexample_missing_payload :
    (generate_speech_from_file AWS_REGIONS "en-US"
        (fun _ => Response.success false) ["hola"]).files.length = 0
    ∧ (generate_speech_from_file AWS_REGIONS "en-US"
        (fun _ => Response.success false) ["hola"]).count = 1
    ∧ (generate_speech_from_file AWS_REGIONS "en-US"
        (fun _ => Response.success false) ["hola"]).failures = [] := by decide

/-- C4 amended: the number of output files equals the number of non-blank
lines whose response carried an audio payload, while the success count equals
the number of non-blank lines whose dispatch returned without raising; the two
coincide only when every non-failing response has a payload. -/
theorem c4_files_equal_payload_count (regions : List String) (hR : regions ≠ [])
    (lc : String) (oracle : ℕ → Response) (lines : List String) :
    (generate_speech_from_file regions lc oracle lines).files.length
      = (List.range (nonBlank lines)).countP (fun j => isPayload (oracle j))
    ∧ (generate_speech_from_file regions lc oracle lines).count
      = (List.range (nonBlank lines)).countP (fun j => isOk (oracle j)) := by
  rw [generate_speech_from_file_eq]
  obtain ⟨-, h2, h3, -⟩ := runBatch_master regions hR lc oracle (nonBlank lines)
  exact ⟨by rw [h3, filesSpec_length], by rw [h2]; rfl⟩

/-- C4 witness: a concrete all-successful two-line run in which both counts
evaluate to 2. -/
theorem c4_files_equal_payload_count_witness :
    (generate_speech_from_file AWS_REGIONS "en-US"
        (fun _ => Response.success true) ["a", "b"]).files.length = 2
    ∧ (generate_speech_from_file AWS_REGIONS "en-US"
        (fun _ => Response.success true) ["a", "b"]).count = 2 := by
  have h := c4_files_equal_payload_count AWS_REGIONS (by decide) "en-US"
    (fun _ => Response.success true) ["a", "b"]
  exact ⟨h.1.trans (by decide), h.2.trans (by decide)⟩

/-- C5 counterexample: one dispatched request that fails: the request is
dispatched (attempted = 1) but region_count stays 0, so the cursor is not
incremented once for every dispatched request. -/
theorem c5_cursor_counterexample :
    (generate_speech_from_file AWS_REGIONS "en-US" (fun _ => Response.remoteErr)
        ["hello"]).attempted = 1
    ∧ (generate_speech_from_file AWS_REGIONS "en-US" (fun _ => Response.remoteErr)
        ["hello"]).region_count = 0 := by decide

/-- C5 amended: the rotation cursor counts only the requests that returned
without raising since it last wrapped: when every request succeeds it follows
the modular formula (reset exactly each time all endpoints have been used
budget times), and when every request fails it stays at zero even though
requests keep being dispatched. -/
theorem c5_cursor_counts_successes (regions : List String) (hR : regions ≠ [])
    (lc : String) (oracle : ℕ → Response) (lines : List String) :
    ((∀ j, isOk (oracle j) = true) →
      (generate_speech_from_file regions lc oracle lines).region_count
        = (if nonBlank lines = 0 then 0
           else (nonBlank lines - 1) % (budget * regions.length) + 1))
    ∧ ((∀ j, isOk (oracle j) = false) →
      (generate_speech_from_file regions lc oracle lines).region_count = 0
      ∧ (generate_speech_from_file regions lc oracle lines).attempted
          = nonBlank lines) := by
  rw [generate_speech_from_file_eq]
  constructor
  · intro hok
    exact (runBatch_rotation regions hR lc oracle hok (nonBlank lines)).1
  · intro herr
    exact ⟨runBatch_allerr regions hR lc oracle herr (nonBlank lines),
      (runBatch_master regions hR lc oracle (nonBlank lines)).1⟩

/-- C5 witness: after 9 successful requests over the four regions the cursor
holds 9 = (9 - 1) mod 32 + 1. -/
theorem c5_cursor_counts_successes_witness :
    (generate_speech_from_file AWS_REGIONS "en-US"
        (fun _ => Response.success true) (List.replicate 9 "x")).region_count
      = 9 := by
  have h := (c5_cursor_counts_successes AWS_REGIONS (by decide) "en-US"
    (fun _ => Response.success true) (List.replicate 9 "x")).1 (fun j => rfl)
  rw [h]
  decide

/-- C6: when exactly one dispatched request (the one at attempt index k,
counting non-blank lines from 0) fails and every other request succeeds with
audio, the loop still processes every line (attempted equals the number of
non-blank lines), the batch records exactly one failure entry and that entry
references k (the per-line diagnostic prints the success count, which equals
k because all earlier attempts succeeded), and the success count is one less
than the number of attempts. -/
theorem c6_single_failure_isolated (regions : List String) (hR : regions ≠ [])
    (lc : String) (oracle : ℕ → Response) (lines : List String) (k : ℕ)
    (hk : k < nonBlank lines) (hfail : isOk (oracle k) = false)
    (hothers : ∀ j, j ≠ k → oracle j = Response.success true) :
    (generate_speech_from_file regions lc oracle lines).failures = [k]
    ∧ (generate_speech_from_file regions lc oracle lines).attempted
        = nonBlank lines
    ∧ (generate_speech_from_file regions lc oracle lines).count
        = nonBlank lines - 1 := by
  rw [generate_speech_from_file_eq]
  obtain ⟨h1, h2, -, h4⟩ := runBatch_master regions hR lc oracle (nonBlank lines)
  have hokk : okCount oracle k = k := by
    have hall : (List.range k).countP (fun j => isOk (oracle j))
        = (List.range k).length := by
      rw [List.countP_eq_length]
      intro a ha
      rw [hothers a (by simp [List.mem_range] at ha; omega)]
      rfl
    rw [okCount, hall, List.length_range]
  have hfilter : (List.range (nonBlank lines)).filter (fun j => !isOk (oracle j))
      = [k] := by
    refine filter_range_eq_single hk (by rw [hfail]; rfl) ?_
    intro j hj
    rw [hothers j hj]
    rfl
  have hfails : failuresSpec oracle (nonBlank lines) = [k] := by
    rw [failuresSpec, hfilter]
    simp [hokk]
  refine ⟨by rw [h4, hfails], h1, ?_⟩
  have hsum := countP_add_countP_not (fun j => isOk (oracle j))
    (List.range (nonBlank lines))
  simp only [] at hsum
  have hlen1 : (List.range (nonBlank lines)).countP (fun j => !isOk (oracle j))
      = 1 := by
    rw [List.countP_eq_length_filter, hfilter]
    rfl
  rw [h2, okCount]
  rw [List.length_range] at hsum
  omega

/-- C6 witness: three lines, the second attempt (k = 1) failing: the run
attempts all three lines, records the single failure [1], and succeeds on the
other two. -/
theorem c6_single_failure_isolated_witness :
    (generate_speech_from_file AWS_REGIONS "en-US"
        (fun j => if j = 1 then Response.remoteErr else Response.success true)
        ["a", "b", "c"]).failures = [1]
    ∧ (generate_speech_from_file AWS_REGIONS "en-US"
        (fun j => if j = 1 then Response.remoteErr else Response.success true)
        ["a", "b", "c"]).attempted = 3
    ∧ (generate_speech_from_file AWS_REGIONS "en-US"
        (fun j => if j = 1 then Response.remoteErr else Response.success true)
        ["a", "b", "c"]).count = 2 := by
  have h := c6_single_failure_isolated AWS_REGIONS (by decide) "en-US"
    (fun j => if j = 1 then Response.remoteErr else Response.success true)
    ["a", "b", "c"] 1 (by decide) (by decide) (fun j hj => if_neg hj)
  exact ⟨h.1, h.2.1.trans (by decide), h.2.2.trans (by decide)⟩

/-- C7: the spec scenario: input lines Hola, a blank line, and Buenos días
with language code es-ES and an always-successful adapter produce exactly the
two files speech_es-ES_0000.mp3 and speech_es-ES_0001.mp3, with two attempts,
two successes and no failure; the blank line is skipped without consuming an
output index. -/
theorem c7_blank_line_scenario :
    (generate_speech_from_file AWS_REGIONS "es-ES" (fun _ => Response.success true)
        ["Hola", "", "Buenos días"]).files
      = ["speech_es-ES_0000.mp3", "speech_es-ES_0001.mp3"]
    ∧ (generate_speech_from_file AWS_REGIONS "es-ES" (fun _ => Response.success true)
        ["Hola", "", "Buenos días"]).attempted = 2
    ∧ (generate_speech_from_file AWS_REGIONS "es-ES" (fun _ => Response.success true)
        ["Hola", "", "Buenos días"]).count = 2
    ∧ (generate_speech_from_file AWS_REGIONS "es-ES" (fun _ => Response.success true)
        ["Hola", "", "Buenos días"]).failures = [] := by decide

/-- C8 counterexample: a run in which the second response returns without an
audio payload: the embedded indices of the produced files jump from 0000 to
0002, so the numbering has a gap even though no line was blank and no line
failed in the claimed sense (three lines, success count 3, no failure
entries). -/
theorem c8_gap_counterexample :
    (generate_speech_from_file AWS_REGIONS "en-US"
        (fun j => if j = 1 then Response.success false else Response.success true)
        ["a", "b", "c"]).files
      = ["speech_en-US_0000.mp3", "speech_en-US_0002.mp3"]
    ∧ (generate_speech_from_file AWS_REGIONS "en-US"
        (fun j => if j = 1 then Response.success false else Response.success true)
        ["a", "b", "c"]).count = 3
    ∧ (generate_speech_from_file AWS_REGIONS "en-US"
        (fun j => if j = 1 then Response.success false else Response.success true)
        ["a", "b", "c"]).failures = [] := by decide

/-- C8 amended: in every run the embedded file-name indices strictly increase
along the attempt order, and all written file paths are pairwise distinct;
the numbering is additionally gap-free, the indices being exactly
0, 1, ..., count - 1, provided every non-raising response carries an audio
payload (blank lines and failed lines indeed never create gaps; only a
non-failing response without a payload does, as it consumes an index without
writing a file). -/
theorem c8_filename_indices (regions : List String) (hR : regions ≠ [])
    (lc : String) (oracle : ℕ → Response) (lines : List String) :
    (∃ ixs : List ℕ,
        (generate_speech_from_file regions lc oracle lines).files
          = ixs.map (mkFileName lc)
        ∧ ixs.Pairwise (· < ·))
    ∧ (generate_speech_from_file regions lc oracle lines).files.Nodup
    ∧ ((∀ j, oracle j ≠ Response.success false) →
        (generate_speech_from_file regions lc oracle lines).files
          = (List.range (generate_speech_from_file regions lc oracle lines).count).map
              (mkFileName lc)) := by
  obtain ⟨-, h2, h3, -⟩ := runBatch_master regions hR lc oracle (nonBlank lines)
  rw [generate_speech_from_file_eq]
  refine ⟨?_, ?_, ?_⟩
  · rw [h3]
    exact filesSpec_exists_incr lc oracle (nonBlank lines)
  · rw [h3]
    exact filesSpec_nodup lc oracle (nonBlank lines)
  · intro hno
    have hp : ∀ j, isPayload (oracle j) = isOk (oracle j) := by
      intro j
      cases hj : oracle j with
      | success b =>
        cases b
        · exact absurd hj (hno j)
        · rfl
      | remoteErr => rfl
      | writeErr => rfl
    rw [h3, h2]
    exact filesSpec_no_gaps lc oracle hp (nonBlank lines)

/-- C8 witness: an all-successful two-line run: its files are exactly the
range-numbered names 0000 and 0001. -/
theorem c8_filename_indices_witness :
    (generate_speech_from_file AWS_REGIONS "en-US"
        (fun _ => Response.success true) ["a", "b"]).files
      = ["speech_en-US_0000.mp3", "speech_en-US_0001.mp3"] := by
  have h := (c8_filename_indices AWS_REGIONS (by decide) "en-US"
    (fun _ => Response.success true) ["a", "b"]).2.2 (fun j => by decide)
  rw [h]
  decide

/-- C9: evaluation of the wrap-branch timing logic at the inputs that expose
the defect. With last_ts = current_ts = 0 (a wrap within the same
millisecond) the code sleeps 0 + 0.1 = 0.1 seconds, not the remaining window
duration; with last_ts = 0 and current_ts = 999 (the whole window finished in
999 ms, well under a second) the comparison 999 < 1.0 is false and no delay
happens at all, because the millisecond difference is compared against the
literal 1.0. -/
theorem c9_wrap_delay_eval :
    wrapDelay 0 0 = (1 / 10, 0) ∧ wrapDelay 0 999 = (0, 999) := by
  constructor <;> norm_num [wrapDelay]

/-- C10: for every dataset file and every language code present in the voice
map, generate_speech_dataset completes without an uncaught per-row error but
produces zero audio files and reports a final count of 0: each attempted row
raises NameError on the undefined engine argument, and the per-row handler
swallows it and continues. -/
theorem c10_dataset_zero_output (language_code : String) (lines : List String)
    (num_samples : ℕ)
    (h : (List.lookup language_code voice_map).isSome = true) :
    generate_speech_dataset language_code lines num_samples
      = Except.ok (0, []) := by
  obtain ⟨v, hv⟩ := Option.isSome_iff_exists.mp h
  unfold generate_speech_dataset
  rw [hv, datasetLoop_zero]

/-- C10 witness: es-ES is in the voice map and a one-row dataset yields count
0 and no files. -/
theorem c10_dataset_zero_output_witness :
    (List.lookup "es-ES" voice_map).isSome = true
    ∧ generate_speech_dataset "es-ES" ["hello\tworld"] 100 = Except.ok (0, []) :=
  ⟨by decide, c10_dataset_zero_output "es-ES" ["hello\tworld"] 100 (by decide)⟩
